import Mathlib

/-!
Verification development for the fabric.js group/layout subsystem.

The definitions below are a shallow embedding of the source files under
review: `src/shapes/group.class.js` (group membership, layout engine,
invalidation) and the type registry (`Registry` class).  Numeric values are
modelled as rationals; JavaScript objects become Lean structures.  The
external matrix utilities (`multiplyTransformMatrices`, `invertTransform`,
`transformPoint`) are not part of the reviewed sources; the specification
declares them to be a correct standard 2D-affine math library, and they are
modelled here from that contract using the exact formulas of the fabric
utility layer (a 2D affine matrix is stored as the array [a, b, c, d, e, f],
representing the matrix rows [[a, c, e], [b, d, f], [0, 0, 1]]).
-/

namespace Fabric

/-- A 2D point with rational coordinates, mirroring fabric.Point. -/
structure Pt where
  x : ℚ
  y : ℚ
deriving DecidableEq, Repr

def Pt.add (p q : Pt) : Pt := ⟨p.x + q.x, p.y + q.y⟩

def Pt.sub (p q : Pt) : Pt := ⟨p.x - q.x, p.y - q.y⟩

def Pt.scalarDivide (p : Pt) (s : ℚ) : Pt := ⟨p.x / s, p.y / s⟩

def Pt.multiply (p q : Pt) : Pt := ⟨p.x * q.x, p.y * q.y⟩

def Pt.scalarAdd (p : Pt) (s : ℚ) : Pt := ⟨p.x + s, p.y + s⟩

/-- Midpoint of two points, mirroring fabric.Point.midPointFrom. -/
def Pt.midPointFrom (p q : Pt) : Pt := ⟨p.x + (q.x - p.x) / 2, p.y + (q.y - p.y) / 2⟩

/-- Modelled from the spec: 2D affine transform matrix in the fabric array
layout [a, b, c, d, e, f] (matrix utilities are external to the reviewed
sources; the spec assumes a correct standard 2D affine library). -/
@[ext] structure Mat where
  a : ℚ
  b : ℚ
  c : ℚ
  d : ℚ
  e : ℚ
  f : ℚ
deriving DecidableEq, Repr

/-- Modelled from the spec: fabric.util.transformPoint.  When `ignoreOffset`
is set the translation entries are not applied. -/
def transformPoint (p : Pt) (t : Mat) (ignoreOffset : Bool) : Pt :=
  if ignoreOffset then ⟨t.a * p.x + t.c * p.y, t.b * p.x + t.d * p.y⟩
  else ⟨t.a * p.x + t.c * p.y + t.e, t.b * p.x + t.d * p.y + t.f⟩

/-- Modelled from the spec: fabric.util.multiplyTransformMatrices (first
argument applied last, i.e. the product `A ∘ B`). -/
def mulM (A B : Mat) : Mat :=
  ⟨A.a * B.a + A.c * B.b,
   A.b * B.a + A.d * B.b,
   A.a * B.c + A.c * B.d,
   A.b * B.c + A.d * B.d,
   A.a * B.e + A.c * B.f + A.e,
   A.b * B.e + A.d * B.f + A.f⟩

/-- Determinant of the linear part of an affine matrix. -/
def detM (t : Mat) : ℚ := t.a * t.d - t.b * t.c

/-- Modelled from the spec: fabric.util.invertTransform, using the exact
formula of the fabric utility (`a = 1/det`, rotated/scaled part inverted,
then the translation mapped through the inverted linear part and negated). -/
def invertTransform (t : Mat) : Mat :=
  let a : ℚ := 1 / detM t
  let r0 : ℚ := a * t.d
  let r1 : ℚ := -a * t.b
  let r2 : ℚ := -a * t.c
  let r3 : ℚ := a * t.a
  let o : Pt := transformPoint ⟨t.e, t.f⟩ ⟨r0, r1, r2, r3, 0, 0⟩ true
  ⟨r0, r1, r2, r3, -o.x, -o.y⟩

/-- Transform rewrite performed by `Group._enterGroup` when
`removeParentTransform` is true (group.class.js lines 328-337): the object
stored transform becomes `inverse(group.calcTransformMatrix()) ×
object.calcTransformMatrix()`. -/
def enterGroupTransform (groupMatrix objectMatrix : Mat) : Mat :=
  mulM (invertTransform groupMatrix) objectMatrix

/-- Transform rewrite performed by `Group._exitGroup` when
`removeParentTransform` is false (group.class.js lines 361-369): the object
stored transform becomes `group.calcTransformMatrix() ×
object.calcTransformMatrix()`. -/
def exitGroupTransform (groupMatrix objectMatrix : Mat) : Mat :=
  mulM groupMatrix objectMatrix

end Fabric

namespace Fabric

/-!
Shallow embedding of the type registry (`Registry` in the sources).  A JSON
record is modelled by the two fields the registry inspects: the truthiness
of `colorStops` and the optional `type` discriminator.  A registered json
handler is modelled as an opaque numeric token.
-/

/-- A deserialization record as seen by the registry: only the fields read
by `resolveJSONKey` are modelled (`colorStops` truthiness and `type`). -/
structure JSONData where
  colorStops : Bool
  type : Option String
deriving DecidableEq, Repr

/-- The process-wide type registry: an association of type keys to json
handlers (handlers modelled as opaque tokens, later bindings shadowed by
`find?` like a JS Map updated with `set`). -/
structure Registry where
  entries : List (String × Nat)
deriving DecidableEq, Repr

/-- Registry.resolveJSONKey: a record with a truthy `colorStops` field
resolves to the key "gradient" before the `type` field is even consulted;
otherwise the `type` discriminator is the key. -/
def Registry.resolveJSONKey (_r : Registry) (data : JSONData) : Option String :=
  if data.colorStops then some "gradient"
  else data.type

/-- Map.get on the registry,  `this.registry.get(key)?.json`. -/
def Registry.get (r : Registry) (key : String) : Option Nat :=
  (r.entries.find? (fun e => e.1 = key)).map (fun e => e.2)

/-- Registry.getJSONHandler: resolves the key, looks it up, and in strict
mode throws when no handler was found; otherwise the (possibly absent)
handler is returned. -/
def Registry.getJSONHandler (r : Registry) (data : JSONData) (strict : Bool) :
    Except String (Option Nat) :=
  let key := r.resolveJSONKey data
  let handler : Option Nat :=
    match key with
    | some k => r.get k
    | none => none
  match handler with
  | none =>
      if strict then
        Except.error ("fabric: failed to get JSON handler for key " ++
          (match key with | some k => k | none => "undefined"))
      else Except.ok none
  | some h => Except.ok (some h)

end Fabric

namespace Fabric

/-!
Shallow embedding of the layout engine of `Group` (group.class.js).

A single container (the group under analysis) is modelled explicitly; its
children are modelled through the drawable-object contract consumed by the
group code.  Per the specification the object contract is external to the
reviewed sources, so a child is represented by the values the group reads
from it: its relative center point (`getRelativeCenterPoint`), its
axis-aligned half extents (`_getTransformedDimensions()/2`, with the
rotation of lines 893-900 of group.class.js already folded in, matching the
spec description: axis-aligned box of each child's rotated half-extents
around its center), whether its own layout directive is `fill-parent`, and
whether its `group` back-reference points at this container.  The
`fabric.Layer` recursion of `getObjectsBoundingBox` and
`_adjustObjectPosition` concerns a subclass that is not part of the
reviewed sources and is not modelled (no claim involves layers).
-/

/-- A child drawable object as consumed by the group layout code
(modelled from the spec: drawable-object contract of section 6). -/
structure ChildObj where
  center : Pt
  halfExtents : Pt
  fillParent : Bool
  inGroup : Bool
deriving DecidableEq, Repr

/-- An axis-aligned box accumulated by `getObjectsBoundingBox`. -/
structure Box where
  min : Pt
  max : Pt
deriving DecidableEq, Repr

/-- Contribution of one object to the bounding box loop of
`getObjectsBoundingBox` (group.class.js lines 874-912): objects whose
layout is `fill-parent` are skipped; otherwise the box spans
`center - halfExtents` to `center + halfExtents`, with componentwise
min/max exactly as in the source. -/
def objBox (o : ChildObj) : Option Box :=
  if o.fillParent then none
  else
    let a := o.center.sub o.halfExtents
    let b := o.center.add o.halfExtents
    some ⟨⟨min a.x b.x, min a.y b.y⟩, ⟨max a.x b.x, max a.y b.y⟩⟩

/-- Componentwise union of two boxes, as computed by the non-first
iterations of the `getObjectsBoundingBox` loop. -/
def joinBox (p q : Box) : Box :=
  ⟨⟨min p.min.x q.min.x, min p.min.y q.min.y⟩,
   ⟨max p.max.x q.max.x, max p.max.y q.max.y⟩⟩

/-- One iteration of the `getObjectsBoundingBox` loop: `none` plays the
role of the `first` flag still being set. -/
def accBox (acc : Option Box) (o : ChildObj) : Option Box :=
  match objBox o with
  | none => acc
  | some nb =>
      match acc with
      | none => some nb
      | some ob => some (joinBox ob nb)

/-- The layout trigger types of the invalidation protocol. -/
inductive LayoutTrigger where
  | ltInit
  | objectModified
  | added
  | removed
  | layoutChange
  | imperative
  | progress
deriving DecidableEq, Repr

/-- The built-in layout directives (`Group.layout`). -/
inductive LayoutDirective where
  | fitContent
  | fitContentLazy
  | fixed
  | clipPathMode
  | svg
deriving DecidableEq, Repr

/-- A layout result as produced by `getLayoutStrategyResult` /
`getObjectsBoundingBox`: center and dimensions are always present on the
paths this model covers; corrections and offsets are optional fields.  A
missing correction read as `result.correctionX || 0` yields 0 in the
source (both for `undefined` and for the `undefined - x = NaN` produced by
the clip-path branch, since NaN is falsy), which `Option.getD 0` mirrors
exactly. -/
structure LayoutResult where
  centerX : ℚ
  centerY : ℚ
  correctionX : Option ℚ
  correctionY : Option ℚ
  width : ℚ
  height : ℚ
  offsetX : Option ℚ
  offsetY : Option ℚ
deriving DecidableEq, Repr

/-- Constructor options relevant to layout (`initialize` passes them into
the initialization layout context).  A field is `none` when the caller did
not supply it (`typeof options.left === 'number'` is then false). -/
structure InitOptions where
  left : Option ℚ
  top : Option ℚ
  width : Option ℚ
  height : Option ℚ
  angle : Option ℚ
  skewX : Option ℚ
  skewY : Option ℚ
deriving DecidableEq, Repr

/-- A layout context (`LayoutContext` in the source): trigger type, the
changed objects for added/removed triggers, the constructor options for the
initialization trigger, caller overrides for imperative triggers
(`context.context`, modelled as complete layout values), and the
`objectsRelativeToGroup` constructor flag. -/
structure LayoutContext where
  type : LayoutTrigger
  targets : List ChildObj
  options : Option InitOptions
  imperativeContext : Option LayoutResult
  objectsRelativeToGroup : Bool
deriving DecidableEq, Repr

/-- Origin anchor values (modelled from the spec: origin anchors of the
drawable-object contract; `resolveOrigin` maps left/top to -1/2, center to
0, right/bottom to 1/2). -/
inductive Origin where
  | originLeftTop
  | originCenter
  | originRightBottom
deriving DecidableEq, Repr

/-- Modelled from the spec: `resolveOriginX`/`resolveOriginY` of the
drawable-object contract. -/
def resolveOrigin : Origin → ℚ
  | Origin.originLeftTop => -(1 / 2)
  | Origin.originCenter => 0
  | Origin.originRightBottom => 1 / 2

/-- The clip region of a container, modelled from the spec through the
values the layout code reads from it: positioning mode, world-plane center
(`getCenterPoint`), parent-plane center (`getRelativeCenterPoint`),
transformed dimensions, and declared width/height. -/
structure ClipInfo where
  absolutePositioned : Bool
  center : Pt
  relCenter : Pt
  sizeAfter : Pt
  width : ℚ
  height : ℚ
deriving DecidableEq, Repr

/-- The state of the container under analysis.  `center` is its relative
center point in the plane of its parent (`getRelativeCenterPoint`),
`groupTransform` is the world matrix of its owning container when it has
one, `ancestorsCaching` lists the `ownCaching` flags of the ancestor chain
(used by the `isOnACache` recursion), and `canvasPreserve` records
`canvas.preserveObjectStacking` when a canvas back-reference exists. -/
structure GState where
  objects : List ChildObj
  center : Pt
  left : ℚ
  top : ℚ
  width : ℚ
  height : ℚ
  strokeWidth : ℚ
  scaleX : ℚ
  scaleY : ℚ
  angle : ℚ
  skewX : ℚ
  skewY : ℚ
  originX : Origin
  originY : Origin
  layout : LayoutDirective
  firstLayoutDone : Bool
  layoutInProgress : Bool
  dirty : Bool
  ownCaching : Bool
  ancestorsCaching : List Bool
  canvasPreserve : Option Bool
  clipPath : Option ClipInfo
  groupTransform : Option Mat
deriving DecidableEq, Repr

/-- Modelled from the spec: `_getTransformedDimensions` of the
drawable-object contract for the container itself, covering the unskewed
case the group layout exercises (the constructor forces angle/skew to 0
before the initialization layout): dimensions plus stroke, scaled. -/
def getTransformedDimensions (st : GState) (w h sw : ℚ) : Pt :=
  ⟨(w + sw) * st.scaleX, (h + sw) * st.scaleY⟩

/-- Modelled from the spec: `calcOwnMatrix` of the drawable-object
contract in the unrotated, unskewed case: scaling composed with the
translation that places the local origin at the container relative
center.  The angle and skew fields of `GState` are stored (the constructor
path sets them) but do not enter this matrix; the spec contract composes
rotation and skew through the external math utilities, which this
rational model does not represent.  Every theorem whose conclusion
depends on this matrix therefore either fixes a concrete state with zero
angle and skew or hypothesises them to be zero; the remaining theorems
(the progress/guard no-ops and the fixed-directive none-results) return
before this matrix is consulted. -/
def calcOwnMatrix (st : GState) : Mat :=
  ⟨st.scaleX, 0, 0, st.scaleY, st.center.x, st.center.y⟩

/-- Group.getObjectsBoundingBox (group.class.js lines 869-928): `null` for
an empty list, otherwise the componentwise min/max loop followed by the
conversion of the resulting box into the containing plane through
`calcOwnMatrix`. -/
def getObjectsBoundingBox (st : GState) (objects : List ChildObj)
    (ignoreOffset : Bool) : Option LayoutResult :=
  if objects = [] then none
  else
    let acc := objects.foldl accBox none
    let box : Box := match acc with
      | none => ⟨⟨0, 0⟩, ⟨0, 0⟩⟩
      | some b => b
    let size := box.max.sub box.min
    let relativeCenter : Pt :=
      if ignoreOffset then size.scalarDivide 2 else box.min.midPointFrom box.max
    let offset := transformPoint box.min (calcOwnMatrix st) false
    let center := transformPoint relativeCenter (calcOwnMatrix st) false
    some ⟨center.x, center.y, none, none, size.x, size.y, some offset.x, some offset.y⟩

/-- Group.prepareInitialBoundingBox (group.class.js lines 796-861),
translated clause by clause.  The skip condition requires the four
explicit bbox options AND `objectsRelativeToGroup` (or an empty child
list). -/
def prepareInitialBoundingBox (st : GState) (_layoutDirective : LayoutDirective)
    (objects : List ChildObj) (context : LayoutContext) : Option LayoutResult :=
  let options := context.options.getD ⟨none, none, none, none, none, none, none⟩
  let hasX := options.left.isSome
  let hasY := options.top.isSome
  let hasWidth := options.width.isSome
  let hasHeight := options.height.isSome
  if (hasX ∧ hasY ∧ hasWidth ∧ hasHeight ∧ context.objectsRelativeToGroup) ∨ objects = [] then
    none
  else
    let bbox := (getObjectsBoundingBox st objects false).getD
      ⟨0, 0, none, none, 0, 0, none, none⟩
    let width := if hasWidth then st.width else bbox.width
    let height := if hasHeight then st.height else bbox.height
    let calculatedCenter : Pt := ⟨bbox.centerX, bbox.centerY⟩
    let origin : Pt := ⟨resolveOrigin st.originX, resolveOrigin st.originY⟩
    let size : Pt := ⟨width, height⟩
    let strokeWidthVector := getTransformedDimensions st 0 0 st.strokeWidth
    let sizeAfter := getTransformedDimensions st width height 0
    let bboxSizeAfter := getTransformedDimensions st bbox.width bbox.height 0
    let originT := origin.scalarAdd (1 / 2)
    let originCorrection := sizeAfter.multiply originT
    let centerCorrection : Pt :=
      ⟨if hasWidth then bboxSizeAfter.x / 2 else originCorrection.x,
       if hasHeight then bboxSizeAfter.y / 2 else originCorrection.y⟩
    let center : Pt :=
      ⟨if hasX then st.left - (sizeAfter.x + strokeWidthVector.x) * origin.x
        else calculatedCenter.x - centerCorrection.x,
       if hasY then st.top - (sizeAfter.y + strokeWidthVector.y) * origin.y
        else calculatedCenter.y - centerCorrection.y⟩
    let offsetCorrection : Pt :=
      ⟨if hasX then center.x - calculatedCenter.x + bboxSizeAfter.x * (if hasWidth then 1 / 2 else 0)
        else -(if hasWidth then (sizeAfter.x - strokeWidthVector.x) * (1 / 2) else sizeAfter.x * originT.x),
       if hasY then center.y - calculatedCenter.y + bboxSizeAfter.y * (if hasHeight then 1 / 2 else 0)
        else -(if hasHeight then (sizeAfter.y - strokeWidthVector.y) * (1 / 2) else sizeAfter.y * originT.y)⟩
    let correction : Pt :=
      (Pt.add ⟨if hasWidth then -sizeAfter.x / 2 else 0,
               if hasHeight then -sizeAfter.y / 2 else 0⟩ offsetCorrection)
    some ⟨center.x, center.y, some correction.x, some correction.y, size.x, size.y, none, none⟩

/-- Merge of caller-supplied imperative overrides over a computed bounding
box (`Object.assign(this.getObjectsBoundingBox(objects) || {},
context.context)`); overrides are modelled as complete layout values, so
the merge keeps only the offsets of the base box. -/
def overrideResult (base : Option LayoutResult) (ov : LayoutResult) : LayoutResult :=
  match base with
  | none => ov
  | some b => { ov with offsetX := b.offsetX, offsetY := b.offsetY }

/-- Group.prepareBoundingBox (group.class.js lines 773-786). -/
def prepareBoundingBox (st : GState) (layoutDirective : LayoutDirective)
    (objects : List ChildObj) (context : LayoutContext) : Option LayoutResult :=
  if context.type = LayoutTrigger.ltInit then
    prepareInitialBoundingBox st layoutDirective objects context
  else if context.type = LayoutTrigger.imperative ∧ context.imperativeContext.isSome then
    match context.imperativeContext with
    | some ov => some (overrideResult (getObjectsBoundingBox st objects false) ov)
    | none => none
  else
    getObjectsBoundingBox st objects false

/-- The container itself pushed into the object list by the
`fit-content-lazy` added path (`context.targets.concat(this)`): the group
is read through the same object contract as any child; its layout
directive is not `fill-parent` and its own `group` back-reference is not
itself.  The half extents here are the unrotated transformed dimensions:
when the container angle is nonzero the source bounding-box loop
additionally rotates this size vector (group.class.js lines 893-900, with
trigonometry from the external math utilities), which this rational model
does not represent — every theorem in this file that sends the container
through the object contract therefore constrains its angle and skew to
zero, the domain on which this definition agrees with the source. -/
def groupAsChildObj (st : GState) : ChildObj :=
  { center := st.center,
    halfExtents := ⟨(st.width + st.strokeWidth) * st.scaleX / 2,
                    (st.height + st.strokeWidth) * st.scaleY / 2⟩,
    fillParent := false,
    inGroup := false }

/-- Group.getLayoutStrategyResult (group.class.js lines 692-762),
translated branch by branch. -/
def getLayoutStrategyResult (st : GState) (layoutDirective : LayoutDirective)
    (objects : List ChildObj) (context : LayoutContext) : Option LayoutResult :=
  if context.type = LayoutTrigger.progress then none
  else if layoutDirective = LayoutDirective.fitContentLazy ∧
      context.type = LayoutTrigger.added ∧ objects.length > context.targets.length then
    let addedObjects := context.targets ++ [groupAsChildObj st]
    prepareBoundingBox st layoutDirective addedObjects context
  else if layoutDirective = LayoutDirective.fitContent ∨
      layoutDirective = LayoutDirective.fitContentLazy ∨
      (layoutDirective = LayoutDirective.fixed ∧
        (context.type = LayoutTrigger.ltInit ∨ context.type = LayoutTrigger.imperative)) then
    prepareBoundingBox st layoutDirective objects context
  else if layoutDirective = LayoutDirective.clipPathMode ∧ st.clipPath.isSome then
    match st.clipPath with
    | none => none
    | some clipPath =>
      let clipPathSizeAfter := clipPath.sizeAfter
      if clipPath.absolutePositioned ∧
          (context.type = LayoutTrigger.ltInit ∨ context.type = LayoutTrigger.layoutChange) then
        let clipPathCenter :=
          match st.groupTransform with
          | some gm => transformPoint clipPath.center (invertTransform gm) false
          | none => clipPath.center
        some ⟨clipPathCenter.x, clipPathCenter.y, none, none,
          clipPathSizeAfter.x, clipPathSizeAfter.y, none, none⟩
      else if ¬clipPath.absolutePositioned then
        let clipPathCenter := transformPoint clipPath.relCenter (calcOwnMatrix st) true
        if context.type = LayoutTrigger.ltInit ∨ context.type = LayoutTrigger.layoutChange then
          let bbox := prepareBoundingBox st layoutDirective objects context
          let bcx := match bbox with | some b => b.centerX | none => 0
          let bcy := match bbox with | some b => b.centerY | none => 0
          let bcorX := match bbox with | some b => b.correctionX | none => none
          let bcorY := match bbox with | some b => b.correctionY | none => none
          some ⟨bcx + clipPathCenter.x, bcy + clipPathCenter.y,
            bcorX.map (fun q => q - clipPathCenter.x),
            bcorY.map (fun q => q - clipPathCenter.y),
            clipPath.width, clipPath.height, none, none⟩
        else
          some ⟨st.center.x + clipPathCenter.x, st.center.y + clipPathCenter.y,
            none, none, clipPathSizeAfter.x, clipPathSizeAfter.y, none, none⟩
      else none
  else if layoutDirective = LayoutDirective.svg ∧ context.type = LayoutTrigger.ltInit then
    match getObjectsBoundingBox st objects true with
    | some bbox =>
        some { bbox with
          correctionX := some (-(bbox.offsetX.getD 0)),
          correctionY := some (-(bbox.offsetY.getD 0)) }
    | none => none
  else none

/-- Modelled from the spec: `setPositionByOrigin(p, center, center)` places
the container so that its relative center becomes `p`; the stored left/top
anchor follows from the origin anchors and the transformed dimensions
(inverse of the relation used at group.class.js lines 837-838). -/
def setPositionByOrigin (st : GState) (p : Pt) : GState :=
  let sizeAfter := getTransformedDimensions st st.width st.height 0
  let strokeWidthVector := getTransformedDimensions st 0 0 st.strokeWidth
  { st with
    center := p,
    left := p.x + (sizeAfter.x + strokeWidthVector.x) * resolveOrigin st.originX,
    top := p.y + (sizeAfter.y + strokeWidthVector.y) * resolveOrigin st.originY }

/-- Group._applyLayoutStrategy (group.class.js lines 581-650).  Child
positions are tracked through their relative center points, so the
`_adjustObjectPosition` left/top shift becomes a center shift by the same
`diff` (the offset between the stored anchor and the center depends only
on unchanged object dimensions).  The layout-completed hook is a no-op in
the source, the fired event carries no state, and the bubbled layout pass
mutates ancestor containers only, so neither appears in the state of this
container; a progress-type context stays progress-typed while bubbling, so
ancestors drop it by the same guard proved below. -/
def applyLayoutStrategy (st : GState) (context : LayoutContext) : GState :=
  let isFirstLayout := context.type = LayoutTrigger.ltInit
  if ¬isFirstLayout ∧ ¬st.firstLayoutDone then st
  else if context.type = LayoutTrigger.progress ∧ st.layoutInProgress then st
  else
    let initialTransform : Option InitOptions :=
      if isFirstLayout then context.options else none
    let center := st.center
    match getLayoutStrategyResult st st.layout st.objects context with
    | some result =>
        let newCenter : Pt := ⟨result.centerX, result.centerY⟩
        let vector := (center.sub newCenter).add
          ⟨result.correctionX.getD 0, result.correctionY.getD 0⟩
        let diff := transformPoint vector (invertTransform (calcOwnMatrix st)) true
        let st1 := { st with width := result.width, height := result.height }
        let st2 :=
          if ¬(newCenter = center) ∨ initialTransform.isSome then
            let moved := setPositionByOrigin st1 newCenter
            match initialTransform with
            | some o =>
                { moved with
                  angle := o.angle.getD 0,
                  skewX := o.skewX.getD 0,
                  skewY := o.skewY.getD 0 }
            | none => moved
          else st1
        let st3 :=
          if ¬context.objectsRelativeToGroup then
            { st2 with objects := st2.objects.map (fun o =>
                if o.inGroup then { o with center := o.center.add diff } else o) }
          else st2
        let st4 :=
          if ¬isFirstLayout ∧ ¬(st3.layout = LayoutDirective.clipPathMode) then
            match st3.clipPath with
            | some cp =>
                if ¬cp.absolutePositioned then
                  { st3 with clipPath := some { cp with
                      center := cp.center.add diff,
                      relCenter := cp.relCenter.add diff } }
                else st3
            | none => st3
          else st3
        { st4 with layoutInProgress := false, firstLayoutDone := true }
    | none =>
        if isFirstLayout then
          let stI :=
            match initialTransform with
            | some o =>
                { st with
                  angle := o.angle.getD 0,
                  skewX := o.skewX.getD 0,
                  skewY := o.skewY.getD 0 }
            | none => st
          { stI with firstLayoutDone := true }
        else st

/-- The `ownCaching` recursion of ancestors flattened into a list walk:
`isOnACache` is `ownCaching || (!!group && group.isOnACache())`
(group.class.js lines 462-464), with absence of an owning group modelled
by the empty ancestor list. -/
def chainOnACache : List Bool → Bool
  | [] => false
  | own :: ancs => own || chainOnACache ancs

/-- Group.isOnACache. -/
def isOnACache (st : GState) : Bool :=
  st.ownCaching || chainOnACache st.ancestorsCaching

/-- Group.invalidate (group.class.js lines 531-537): conditionally marks
the container dirty, then issues a progress-typed layout pass. -/
def invalidate (st : GState) (context : LayoutContext) : GState :=
  let st1 :=
    if isOnACache st ∧ (st.canvasPreserve = none ∨ st.canvasPreserve = some true) then
      { st with dirty := true }
    else st
  applyLayoutStrategy st1 { context with type := LayoutTrigger.progress }

/-!
Multi-container world model for the membership protocol
(`canEnterGroup`, `enterGroup`, `_enterGroup`, `exitGroup`, `_exitGroup`,
and the single-object path of the collection `remove`).  Objects and
containers are identified by natural numbers; the world tracks the fields
the protocol mutates: `group` and `canvas` back-references, child lists,
stored transforms, active-object lists, and dirty flags.  The layout pass
triggered by a removal (`_onAfterObjectsChange`) adjusts the geometry of
the old container and of its remaining children (see
`applyLayoutStrategy` above) but touches neither membership nor
back-references; in this membership-level world its tracked effect is the
dirty flag set on the old container.
-/

/-- The world state of the membership model. -/
structure World where
  groupOf : Nat → Option Nat
  childrenOf : Nat → List Nat
  transformOf : Nat → Mat
  hasCanvas : Nat → Bool
  activeOf : Nat → List Nat
  dirtyOf : Nat → Bool
  canvasActiveObject : Option Nat

def World.setGroupOf (w : World) (o : Nat) (v : Option Nat) : World :=
  { w with groupOf := fun n => if n = o then v else w.groupOf n }

def World.setChildrenOf (w : World) (g : Nat) (v : List Nat) : World :=
  { w with childrenOf := fun n => if n = g then v else w.childrenOf n }

def World.setTransformOf (w : World) (o : Nat) (v : Mat) : World :=
  { w with transformOf := fun n => if n = o then v else w.transformOf n }

def World.setHasCanvas (w : World) (o : Nat) (v : Bool) : World :=
  { w with hasCanvas := fun n => if n = o then v else w.hasCanvas n }

def World.setActiveOf (w : World) (g : Nat) (v : List Nat) : World :=
  { w with activeOf := fun n => if n = g then v else w.activeOf n }

def World.setDirtyOf (w : World) (g : Nat) (v : Bool) : World :=
  { w with dirtyOf := fun n => if n = g then v else w.dirtyOf n }

/-- Modelled from the spec: `calcTransformMatrix` composes the stored
transform with all ancestors (drawable-object contract, section 6); the
recursion over the `group` chain carries an explicit bound, adequate for
any acyclic world whose chains are shorter than the bound. -/
def calcTransformMatrixW (w : World) : Nat → Nat → Mat
  | 0, x => w.transformOf x
  | fuel + 1, x =>
      match w.groupOf x with
      | some p => mulM (calcTransformMatrixW w fuel p) (w.transformOf x)
      | none => w.transformOf x

/-- Modelled from the spec: `isDescendantOf` walks the `group` chain of
`x` looking for `target` (the cycle guard of `canEnterGroup` rejects when
a descendant of the object is the container). -/
def isDescendantOfW (w : World) : Nat → Nat → Nat → Bool
  | 0, _, _ => false
  | fuel + 1, x, target =>
      match w.groupOf x with
      | some p => p = target || isDescendantOfW w fuel p target
      | none => false

/-- Error message of the cycle guard (group.class.js line 287). -/
def cycleMsg : String := "fabric.Group: trying to add group to itself"

/-- Error message of the duplicate guard (group.class.js line 290). -/
def duplicateMsg : String := "fabric.Group: duplicate objects are not supported inside group"

/-- Group.canEnterGroup (group.class.js lines 285-298): throws on a cycle
(the object is the container, or the container descends from the object)
and on a duplicate direct member; entering from another container is only
a warning. -/
def canEnterGroupW (w : World) (fuel g o : Nat) : Option String :=
  if o = g ∨ isDescendantOfW w fuel g o then some cycleMsg
  else if w.groupOf o = some g then some duplicateMsg
  else none

/-- Group._exitGroup (group.class.js lines 359-376): clears the `group`
back-reference, applies the container world matrix to the stored transform
unless `removeParentTransform` is requested, and drops the object from the
active list. -/
def exitGroupInnerW (w : World) (fuel g o : Nat) (removeParentTransform : Bool) : World :=
  let w1 := w.setGroupOf o none
  let w2 :=
    if removeParentTransform then w1
    else w1.setTransformOf o
      (mulM (calcTransformMatrixW w1 fuel g) (w1.transformOf o))
  w2.setActiveOf g ((w2.activeOf g).erase o)

/-- Group.exitGroup (group.class.js lines 349-352): `_exitGroup` followed
by clearing the canvas back-reference. -/
def exitGroupW (w : World) (fuel g o : Nat) (removeParentTransform : Bool) : World :=
  (exitGroupInnerW w fuel g o removeParentTransform).setHasCanvas o false

/-- The single-object path of `Group.remove` (collection splice +
`_onObjectRemoved` + `_onAfterObjectsChange`); the collection mixin is not
part of the reviewed sources and is modelled from the spec (membership
operations of section 4.1): splice the object out when present and run the
exit protocol, then trigger the removed layout pass (tracked effect: the
dirty flag) unconditionally. -/
def removeObjectW (w : World) (fuel g o : Nat) : World :=
  let w1 :=
    if o ∈ w.childrenOf g then
      let ws := w.setChildrenOf g ((w.childrenOf g).erase o)
      exitGroupW ws fuel g o false
    else w
  w1.setDirtyOf g true

/-- Group._enterGroup (group.class.js lines 327-342): optionally rewrites
the stored transform into container-local coordinates, then sets the
`group` and `canvas` back-references. -/
def enterGroupInnerW (w : World) (fuel g o : Nat) (removeParentTransform : Bool) : World :=
  let w1 :=
    if removeParentTransform then
      w.setTransformOf o
        (mulM (invertTransform (calcTransformMatrixW w fuel g)) (w.transformOf o))
    else w
  let w2 := w1.setGroupOf o (some g)
  w2.setHasCanvas o (w2.hasCanvas g)

/-- The active-object bookkeeping at the end of `Group.enterGroup`
(group.class.js lines 314-318): when the canvas has an active object that
is the entering object or an ancestor of it, the entering object is pushed
onto the active list. -/
def activeEnterBookkeepingW (w2 : World) (fuel g o : Nat) : World :=
  match (if w2.hasCanvas g then w2.canvasActiveObject else none) with
  | some a =>
      if a = o ∨ isDescendantOfW w2 fuel o a then
        w2.setActiveOf g ((w2.activeOf g) ++ [o])
      else w2
  | none => w2

/-- Group.enterGroup (group.class.js lines 306-320): the strict guard
first (an error aborts with the world untouched), then eviction from any
prior container, then `_enterGroup`, then active-object bookkeeping. -/
def enterGroupW (w : World) (fuel g o : Nat) (removeParentTransform : Bool) :
    World × Option String :=
  match canEnterGroupW w fuel g o with
  | some e => (w, some e)
  | none =>
      let w1 :=
        match w.groupOf o with
        | some og => removeObjectW w fuel og o
        | none => w
      let w2 := enterGroupInnerW w1 fuel g o removeParentTransform
      (activeEnterBookkeepingW w2 fuel g o, none)

/-- Helper: a progress-typed layout pass never changes the container state:
either the pre-initialization guard, the re-entrancy guard, or the absence
of a strategy result (the unconditional first branch of
`getLayoutStrategyResult`) returns before any mutation. -/
lemma getLayoutStrategyResult_progress (s : GState) (d : LayoutDirective)
    (objs : List ChildObj) (ctx : LayoutContext)
    (h : ctx.type = LayoutTrigger.progress) :
    getLayoutStrategyResult s d objs ctx = none := by
  unfold getLayoutStrategyResult
  rw [h]
  simp

lemma applyLayout_progress_eq (s : GState) (ctx : LayoutContext)
    (h : ctx.type = LayoutTrigger.progress) : applyLayoutStrategy s ctx = s := by
  unfold applyLayoutStrategy
  rw [getLayoutStrategyResult_progress s s.layout s.objects ctx h, h]
  by_cases hf : s.firstLayoutDone <;> by_cases hp : s.layoutInProgress <;>
    simp [hf, hp]

/-- C2: entering a container with `removeParentTransform` rewrites the
stored transform to `inverse(G) × W`; exiting without it rewrites to
`G × (stored)`; over exact rational arithmetic the round trip restores the
original world transform whenever the container matrix is invertible. -/
theorem c2_enter_exit_restores_transform (G W : Mat) (h : detM G ≠ 0) :
    exitGroupTransform G (enterGroupTransform G W) = W := by
  have hd : G.a * G.d - G.b * G.c ≠ 0 := h
  ext <;>
    (simp only [exitGroupTransform, enterGroupTransform, mulM, invertTransform, detM,
      transformPoint, if_true]
     field_simp
     ring)

/-- Witness for C2 at a concrete invertible container matrix. -/
theorem c2_enter_exit_restores_transform_witness :
    detM ⟨2, 0, 0, 3, 5, 7⟩ ≠ 0 ∧
    exitGroupTransform ⟨2, 0, 0, 3, 5, 7⟩
      (enterGroupTransform ⟨2, 0, 0, 3, 5, 7⟩ ⟨1, 2, 3, 4, 5, 6⟩) = ⟨1, 2, 3, 4, 5, 6⟩ :=
  ⟨by norm_num [detM],
   c2_enter_exit_restores_transform ⟨2, 0, 0, 3, 5, 7⟩ ⟨1, 2, 3, 4, 5, 6⟩ (by norm_num [detM])⟩

/-- C9: in strict mode `getJSONHandler` throws exactly when the resolved
key has no registered handler (including an unresolvable key), and returns
the registered handler without error otherwise. -/
theorem c9_getJSONHandler_strict (r : Registry) (d : JSONData) :
    (r.resolveJSONKey d = none →
        r.getJSONHandler d true =
          Except.error "fabric: failed to get JSON handler for key undefined") ∧
    (∀ k, r.resolveJSONKey d = some k → r.get k = none →
        r.getJSONHandler d true =
          Except.error ("fabric: failed to get JSON handler for key " ++ k)) ∧
    (∀ k h, r.resolveJSONKey d = some k → r.get k = some h →
        r.getJSONHandler d true = Except.ok (some h)) := by
  refine ⟨fun hk => ?_, fun k hk hget => ?_, fun k h hk hget => ?_⟩
  · simp [Registry.getJSONHandler, hk]
  · simp [Registry.getJSONHandler, hk, hget]
  · simp [Registry.getJSONHandler, hk, hget]

/-- Witness for C9: a registry holding only a handler for the key rect
rejects a record of type circle and serves a record of type rect. -/
theorem c9_getJSONHandler_strict_witness :
    (Registry.resolveJSONKey ⟨[("rect", 7)]⟩ ⟨false, some "circle"⟩ = some "circle" ∧
      Registry.get ⟨[("rect", 7)]⟩ "circle" = none ∧
      Registry.getJSONHandler ⟨[("rect", 7)]⟩ ⟨false, some "circle"⟩ true =
        Except.error "fabric: failed to get JSON handler for key circle") ∧
    (Registry.resolveJSONKey ⟨[("rect", 7)]⟩ ⟨false, some "rect"⟩ = some "rect" ∧
      Registry.get ⟨[("rect", 7)]⟩ "rect" = some 7 ∧
      Registry.getJSONHandler ⟨[("rect", 7)]⟩ ⟨false, some "rect"⟩ true =
        Except.ok (some 7)) := by
  refine ⟨⟨by decide, by decide, ?_⟩, ⟨by decide, by decide, ?_⟩⟩
  · exact (c9_getJSONHandler_strict ⟨[("rect", 7)]⟩ ⟨false, some "circle"⟩).2.1
      "circle" (by decide) (by decide)
  · exact (c9_getJSONHandler_strict ⟨[("rect", 7)]⟩ ⟨false, some "rect"⟩).2.2
      "rect" 7 (by decide) (by decide)

/-- C10: a record with a truthy colorStops field resolves to the gradient
key unconditionally, even when it also carries an explicit type
discriminator. -/
theorem c10_resolveJSONKey_gradient (r : Registry) (d : JSONData)
    (h : d.colorStops = true) : r.resolveJSONKey d = some "gradient" := by
  simp [Registry.resolveJSONKey, h]

/-- Witness for C10: a record that carries both colorStops and an explicit
type rect still resolves to gradient. -/
theorem c10_resolveJSONKey_gradient_witness :
    (JSONData.colorStops ⟨true, some "rect"⟩ = true) ∧
    Registry.resolveJSONKey ⟨[]⟩ ⟨true, some "rect"⟩ = some "gradient" :=
  ⟨rfl, c10_resolveJSONKey_gradient ⟨[]⟩ ⟨true, some "rect"⟩ rfl⟩

/-- C5: for a container past its first layout, a progress-typed trigger
produces no strategy result under any layout directive, and any number of
progress-typed layout passes leaves the container state (width, height,
center, children, and every other field) unchanged. -/
theorem c5_progress_noop (st : GState) (d : LayoutDirective)
    (objs : List ChildObj) (ctx : LayoutContext)
    (hdone : st.firstLayoutDone = true) (hp : ctx.type = LayoutTrigger.progress) :
    getLayoutStrategyResult st d objs ctx = none ∧
    ∀ n : Nat, (fun s => applyLayoutStrategy s ctx)^[n] st = st := by
  constructor
  · unfold getLayoutStrategyResult
    simp [hp]
  · intro n
    induction n with
    | zero => rfl
    | succ m ih =>
        rw [Function.iterate_succ_apply, applyLayout_progress_eq st ctx hp, ih]

/-- Witness for C5 at a concrete laid-out container and progress context. -/
theorem c5_progress_noop_witness :
    (GState.firstLayoutDone
        ⟨[⟨⟨0, 0⟩, ⟨5, 5⟩, false, true⟩], ⟨0, 0⟩, -5, -5, 10, 10, 0, 1, 1, 0, 0, 0,
          Origin.originLeftTop, Origin.originLeftTop, LayoutDirective.fitContent,
          true, false, false, false, [], none, none, none⟩ = true) ∧
    (LayoutContext.type ⟨LayoutTrigger.progress, [], none, none, false⟩ =
        LayoutTrigger.progress) ∧
    (getLayoutStrategyResult
        ⟨[⟨⟨0, 0⟩, ⟨5, 5⟩, false, true⟩], ⟨0, 0⟩, -5, -5, 10, 10, 0, 1, 1, 0, 0, 0,
          Origin.originLeftTop, Origin.originLeftTop, LayoutDirective.fitContent,
          true, false, false, false, [], none, none, none⟩
        LayoutDirective.fitContent [⟨⟨0, 0⟩, ⟨5, 5⟩, false, true⟩]
        ⟨LayoutTrigger.progress, [], none, none, false⟩ = none ∧
      ∀ n : Nat,
        (fun s => applyLayoutStrategy s ⟨LayoutTrigger.progress, [], none, none, false⟩)^[n]
          ⟨[⟨⟨0, 0⟩, ⟨5, 5⟩, false, true⟩], ⟨0, 0⟩, -5, -5, 10, 10, 0, 1, 1, 0, 0, 0,
            Origin.originLeftTop, Origin.originLeftTop, LayoutDirective.fitContent,
            true, false, false, false, [], none, none, none⟩ =
          ⟨[⟨⟨0, 0⟩, ⟨5, 5⟩, false, true⟩], ⟨0, 0⟩, -5, -5, 10, 10, 0, 1, 1, 0, 0, 0,
            Origin.originLeftTop, Origin.originLeftTop, LayoutDirective.fitContent,
            true, false, false, false, [], none, none, none⟩) :=
  ⟨rfl, rfl,
   c5_progress_noop _ LayoutDirective.fitContent _ _ rfl rfl⟩

/-- C3: `invalidate` sets the dirty flag exactly when the container is on a
cache and either has no canvas or the canvas preserves object stacking, and
performs no geometry recomputation: width, height, center and the children
are untouched (the progress-typed layout pass it issues is a no-op). -/
theorem c3_invalidate_dirty_iff_cache (st : GState) (ctx : LayoutContext) :
    ((invalidate st ctx).dirty =
      if isOnACache st ∧ (st.canvasPreserve = none ∨ st.canvasPreserve = some true)
      then true else st.dirty) ∧
    (invalidate st ctx).width = st.width ∧
    (invalidate st ctx).height = st.height ∧
    (invalidate st ctx).center = st.center ∧
    (invalidate st ctx).objects = st.objects := by
  have hinv : invalidate st ctx =
      if isOnACache st ∧ (st.canvasPreserve = none ∨ st.canvasPreserve = some true)
      then { st with dirty := true } else st := by
    unfold invalidate
    rw [applyLayout_progress_eq _ _ rfl]
  rw [hinv]
  by_cases hc : isOnACache st ∧ (st.canvasPreserve = none ∨ st.canvasPreserve = some true)
  · simp [hc]
  · simp [hc]

/-- Helper: the exit protocol never touches child lists. -/
lemma exitGroupW_childrenOf (w : World) (fuel g o : Nat) (rpt : Bool) :
    (exitGroupW w fuel g o rpt).childrenOf = w.childrenOf := by
  unfold exitGroupW exitGroupInnerW World.setGroupOf World.setTransformOf
    World.setActiveOf World.setHasCanvas
  split <;> rfl

/-- Helper: what the single-object removal does to every child list:
the object is spliced out of the container child list when present, no
other list is touched. -/
lemma removeObjectW_childrenOf (w : World) (fuel g o : Nat) (n : Nat) :
    (removeObjectW w fuel g o).childrenOf n =
      if n = g ∧ o ∈ w.childrenOf g then (w.childrenOf g).erase o
      else w.childrenOf n := by
  unfold removeObjectW World.setDirtyOf
  by_cases hm : o ∈ w.childrenOf g
  · simp only [if_pos hm, exitGroupW_childrenOf]
    unfold World.setChildrenOf
    by_cases hn : n = g
    · subst hn; simp [hm]
    · simp [hn]
  · simp [hm]

/-- Helper: the exit protocol inside the remove path clears the group
back-reference of the removed object and touches no other. -/
lemma removeObjectW_groupOf (w : World) (fuel g o : Nat) (n : Nat) :
    (removeObjectW w fuel g o).groupOf n =
      if n = o ∧ o ∈ w.childrenOf g then none else w.groupOf n := by
  unfold removeObjectW World.setDirtyOf exitGroupW exitGroupInnerW World.setGroupOf
    World.setTransformOf World.setActiveOf World.setHasCanvas World.setChildrenOf
  by_cases hm : o ∈ w.childrenOf g
  · simp only [if_pos hm]
    by_cases hn : n = o
    · subst hn
      split <;> simp [hm]
    · split <;> simp [hn, hm]
  · simp [hm]

/-- Helper: the active-object bookkeeping touches only active lists. -/
lemma activeEnterBookkeepingW_childrenOf (w2 : World) (fuel g o : Nat) :
    (activeEnterBookkeepingW w2 fuel g o).childrenOf = w2.childrenOf := by
  unfold activeEnterBookkeepingW World.setActiveOf
  split
  · split <;> rfl
  · rfl

/-- Helper: the active-object bookkeeping preserves group back-references. -/
lemma activeEnterBookkeepingW_groupOf (w2 : World) (fuel g o : Nat) :
    (activeEnterBookkeepingW w2 fuel g o).groupOf = w2.groupOf := by
  unfold activeEnterBookkeepingW World.setActiveOf
  split
  · split <;> rfl
  · rfl

/-- Helper: `_enterGroup` never touches child lists. -/
lemma enterGroupInnerW_childrenOf (wx : World) (fuel g o : Nat) (rpt : Bool) :
    (enterGroupInnerW wx fuel g o rpt).childrenOf = wx.childrenOf := by
  unfold enterGroupInnerW World.setGroupOf World.setTransformOf World.setHasCanvas
  split <;> rfl

/-- Helper: `_enterGroup` points the group back-reference of the entering
object at the container. -/
lemma enterGroupInnerW_groupOf_self (wx : World) (fuel g o : Nat) (rpt : Bool) :
    (enterGroupInnerW wx fuel g o rpt).groupOf o = some g := by
  unfold enterGroupInnerW World.setGroupOf World.setTransformOf World.setHasCanvas
  split <;> simp

/-- C4: the strict enter guard throws the cycle error when the object is
the container or the container descends from the object, and the duplicate
error when the object is already a direct member, each with the world left
untouched; entering from a different container first splices the object out
of that container and then points its group back-reference at the target
container, completing without error. -/
theorem c4_enterGroup_guards (w : World) (fuel g o : Nat) (rpt : Bool) :
    ((o = g ∨ isDescendantOfW w fuel g o = true) →
        enterGroupW w fuel g o rpt = (w, some cycleMsg)) ∧
    (¬(o = g ∨ isDescendantOfW w fuel g o = true) → w.groupOf o = some g →
        enterGroupW w fuel g o rpt = (w, some duplicateMsg)) ∧
    (∀ g2, ¬(o = g ∨ isDescendantOfW w fuel g o = true) → w.groupOf o = some g2 →
        g2 ≠ g → (w.childrenOf g2).Nodup →
        (enterGroupW w fuel g o rpt).2 = none ∧
        o ∉ (enterGroupW w fuel g o rpt).1.childrenOf g2 ∧
        (enterGroupW w fuel g o rpt).1.groupOf o = some g) := by
  refine ⟨fun h => ?_, fun h hdup => ?_, fun g2 h hg2 hne hnodup => ?_⟩
  · have hc : canEnterGroupW w fuel g o = some cycleMsg := by
      unfold canEnterGroupW
      rw [if_pos h]
    unfold enterGroupW
    rw [hc]
  · have hc : canEnterGroupW w fuel g o = some duplicateMsg := by
      unfold canEnterGroupW
      rw [if_neg h, if_pos hdup]
    unfold enterGroupW
    rw [hc]
  · have hc : canEnterGroupW w fuel g o = none := by
      unfold canEnterGroupW
      rw [if_neg h, if_neg (by rw [hg2]; simp; exact hne)]
    have hstep : enterGroupW w fuel g o rpt =
        (activeEnterBookkeepingW
          (enterGroupInnerW (removeObjectW w fuel g2 o) fuel g o rpt) fuel g o, none) := by
      unfold enterGroupW
      rw [hc, hg2]
    rw [hstep]
    refine ⟨rfl, ?_, ?_⟩
    · rw [activeEnterBookkeepingW_childrenOf, enterGroupInnerW_childrenOf,
        removeObjectW_childrenOf]
      by_cases hm : o ∈ w.childrenOf g2
      · rw [if_pos ⟨rfl, hm⟩]
        exact hnodup.not_mem_erase
      · simp [hm]
    · rw [activeEnterBookkeepingW_groupOf, enterGroupInnerW_groupOf_self]

/-- Witness for C4: container 0, container 1 holding object 2 with the
identity transform; all three enter scenarios instantiated concretely
(cycle: 0 entering itself; duplicate: 2 already in 1; success: 2 moving
from 1 into 0). -/
theorem c4_enterGroup_guards_witness :
    (enterGroupW
        ⟨fun n => if n = 2 then some 1 else none,
         fun n => if n = 1 then [2] else [],
         fun _ => ⟨1, 0, 0, 1, 0, 0⟩, fun _ => false, fun _ => [], fun _ => false, none⟩
        3 0 0 true =
      (⟨fun n => if n = 2 then some 1 else none,
         fun n => if n = 1 then [2] else [],
         fun _ => ⟨1, 0, 0, 1, 0, 0⟩, fun _ => false, fun _ => [], fun _ => false, none⟩,
       some cycleMsg)) ∧
    (enterGroupW
        ⟨fun n => if n = 2 then some 1 else none,
         fun n => if n = 1 then [2] else [],
         fun _ => ⟨1, 0, 0, 1, 0, 0⟩, fun _ => false, fun _ => [], fun _ => false, none⟩
        3 1 2 true =
      (⟨fun n => if n = 2 then some 1 else none,
         fun n => if n = 1 then [2] else [],
         fun _ => ⟨1, 0, 0, 1, 0, 0⟩, fun _ => false, fun _ => [], fun _ => false, none⟩,
       some duplicateMsg)) ∧
    ((enterGroupW
        ⟨fun n => if n = 2 then some 1 else none,
         fun n => if n = 1 then [2] else [],
         fun _ => ⟨1, 0, 0, 1, 0, 0⟩, fun _ => false, fun _ => [], fun _ => false, none⟩
        3 0 2 true).2 = none ∧
      2 ∉ (enterGroupW
        ⟨fun n => if n = 2 then some 1 else none,
         fun n => if n = 1 then [2] else [],
         fun _ => ⟨1, 0, 0, 1, 0, 0⟩, fun _ => false, fun _ => [], fun _ => false, none⟩
        3 0 2 true).1.childrenOf 1 ∧
      (enterGroupW
        ⟨fun n => if n = 2 then some 1 else none,
         fun n => if n = 1 then [2] else [],
         fun _ => ⟨1, 0, 0, 1, 0, 0⟩, fun _ => false, fun _ => [], fun _ => false, none⟩
        3 0 2 true).1.groupOf 2 = some 0) := by
  refine ⟨?_, ?_, ?_⟩
  · exact (c4_enterGroup_guards _ 3 0 0 true).1 (Or.inl rfl)
  · exact (c4_enterGroup_guards _ 3 1 2 true).2.1 (by decide) (by decide)
  · exact (c4_enterGroup_guards _ 3 0 2 true).2.2 1 (by decide) (by decide)
      (by decide) (by decide)

/-- Helper: under the fit-content directive an initialization trigger
reaches `prepareInitialBoundingBox`. -/
lemma getLayoutStrategyResult_init_fitContent (st : GState) (objs : List ChildObj)
    (ctx : LayoutContext) (h : ctx.type = LayoutTrigger.ltInit) :
    getLayoutStrategyResult st LayoutDirective.fitContent objs ctx =
      prepareInitialBoundingBox st LayoutDirective.fitContent objs ctx := by
  unfold getLayoutStrategyResult prepareBoundingBox
  rw [h]
  simp

/-- Helper: under the fixed directive an initialization trigger reaches
`prepareInitialBoundingBox`. -/
lemma getLayoutStrategyResult_init_fixed (st : GState) (objs : List ChildObj)
    (ctx : LayoutContext) (h : ctx.type = LayoutTrigger.ltInit) :
    getLayoutStrategyResult st LayoutDirective.fixed objs ctx =
      prepareInitialBoundingBox st LayoutDirective.fixed objs ctx := by
  unfold getLayoutStrategyResult prepareBoundingBox
  rw [h]
  simp

/-- An unrotated, unscaled, unskewed rectangle with the given left/top
anchor and dimensions at strokeWidth 0, read through the drawable-object
contract: relative center at the anchor plus half the size, half extents
equal to half the size. -/
def rectChild (l t w h : ℚ) : ChildObj :=
  { center := ⟨l + w / 2, t + h / 2⟩,
    halfExtents := ⟨w / 2, h / 2⟩,
    fillParent := false,
    inGroup := true }

/-- The fit-content container of scenario C6, holding the two rectangles
of the claim, before its first layout. -/
def fitContentSt : GState :=
  { objects := [rectChild 10 (-30) 30 10, rectChild (-40) (-10) 10 40],
    center := ⟨0, 0⟩, left := 0, top := 0, width := 0, height := 0,
    strokeWidth := 0, scaleX := 1, scaleY := 1, angle := 0, skewX := 0, skewY := 0,
    originX := Origin.originLeftTop, originY := Origin.originLeftTop,
    layout := LayoutDirective.fitContent, firstLayoutDone := false,
    layoutInProgress := false, dirty := false, ownCaching := false,
    ancestorsCaching := [], canvasPreserve := none, clipPath := none,
    groupTransform := none }

/-- The initialization layout context of scenario C6 (constructor called
with no options). -/
def fitContentInitCtx : LayoutContext :=
  { type := LayoutTrigger.ltInit, targets := [], options := none,
    imperativeContext := none, objectsRelativeToGroup := false }

/-- C6: the bounding box computed over the two claim rectangles — one at
local (10,-30) sized 30 by 10 and one at local (-40,-10) sized 10 by 40,
strokeWidth 0 — has width 80 and height 60, and the initialization layout
therefore sets the container dimensions to 80 by 60. -/
theorem c6_fit_content_two_rects_bbox :
    ((getObjectsBoundingBox fitContentSt fitContentSt.objects false).map
        (fun r => (r.width, r.height)) = some ((80 : ℚ), (60 : ℚ))) ∧
    (applyLayoutStrategy fitContentSt fitContentInitCtx).width = 80 ∧
    (applyLayoutStrategy fitContentSt fitContentInitCtx).height = 60 := by
  have hne : fitContentSt.objects ≠ [] := by simp [fitContentSt]
  have h1 : getObjectsBoundingBox fitContentSt fitContentSt.objects false =
      some ⟨0, 0, none, none, 80, 60, some (-40), some (-30)⟩ := by
    norm_num [getObjectsBoundingBox, accBox, objBox, joinBox, calcOwnMatrix,
      transformPoint, Pt.sub, Pt.add, Pt.midPointFrom, fitContentSt, rectChild,
      List.foldl]
    intro h
    simp at h
  have h2 : getLayoutStrategyResult fitContentSt fitContentSt.layout
      fitContentSt.objects fitContentInitCtx =
      some ⟨0, 0, some 0, some 0, 80, 60, none, none⟩ := by
    rw [show fitContentSt.layout = LayoutDirective.fitContent from rfl,
      getLayoutStrategyResult_init_fitContent _ _ _ rfl]
    simp only [prepareInitialBoundingBox, h1, fitContentInitCtx]
    norm_num [hne, getTransformedDimensions, resolveOrigin, Pt.multiply,
      Pt.scalarAdd, Pt.add, fitContentSt]
    intro h
    simp at h
  have h3 : (applyLayoutStrategy fitContentSt fitContentInitCtx).width = 80 ∧
      (applyLayoutStrategy fitContentSt fitContentInitCtx).height = 60 := by
    unfold applyLayoutStrategy
    rw [h2]
    norm_num [fitContentSt, fitContentInitCtx, setPositionByOrigin,
      getTransformedDimensions, resolveOrigin, calcOwnMatrix, invertTransform,
      detM, transformPoint, Pt.add, Pt.sub, rectChild]
  exact ⟨by rw [h1]; norm_num, h3.1, h3.2⟩

/-- The fixed-layout container of the C7 counterexample: explicit left,
top, width and height all supplied, one member, children NOT passed as
relative to the group. -/
def fixedSt : GState :=
  { objects := [rectChild 0 0 20 20],
    center := ⟨0, 0⟩, left := 5, top := 5, width := 50, height := 40,
    strokeWidth := 0, scaleX := 1, scaleY := 1, angle := 0, skewX := 0, skewY := 0,
    originX := Origin.originLeftTop, originY := Origin.originLeftTop,
    layout := LayoutDirective.fixed, firstLayoutDone := false,
    layoutInProgress := false, dirty := false, ownCaching := false,
    ancestorsCaching := [], canvasPreserve := none, clipPath := none,
    groupTransform := none }

/-- The constructor options of the C7 counterexample: all four explicit
bbox options given. -/
def fixedInitOptions : InitOptions :=
  ⟨some 5, some 5, some 50, some 40, none, none, none⟩

/-- The initialization context of the C7 counterexample:
`objectsRelativeToGroup` is false. -/
def fixedInitCtx : LayoutContext :=
  { type := LayoutTrigger.ltInit, targets := [], options := some fixedInitOptions,
    imperativeContext := none, objectsRelativeToGroup := false }

/-- C7 counterexample: with explicit left, top, width and height all given
but `objectsRelativeToGroup` false and a nonempty child list, the fixed
initialization layout does NOT skip — `getLayoutStrategyResult` computes a
bounding box over the children and returns a result, refuting the claim
that explicit dimensions alone make the initial layout calculation return
no result. -/
theorem c7_fixed_init_explicit_dims_counterexample :
    fixedInitOptions.left.isSome = true ∧ fixedInitOptions.top.isSome = true ∧
    fixedInitOptions.width.isSome = true ∧ fixedInitOptions.height.isSome = true ∧
    fixedInitCtx.objectsRelativeToGroup = false ∧
    (getLayoutStrategyResult fixedSt LayoutDirective.fixed fixedSt.objects
      fixedInitCtx).isSome = true := by
  refine ⟨rfl, rfl, rfl, rfl, rfl, ?_⟩
  have hne : fixedSt.objects ≠ [] := by simp [fixedSt]
  have hb : getObjectsBoundingBox fixedSt fixedSt.objects false =
      some ⟨10, 10, none, none, 20, 20, some 0, some 0⟩ := by
    norm_num [getObjectsBoundingBox, accBox, objBox, joinBox, calcOwnMatrix,
      transformPoint, Pt.sub, Pt.add, Pt.midPointFrom, fixedSt, rectChild,
      List.foldl]
  have hs : getLayoutStrategyResult fixedSt LayoutDirective.fixed fixedSt.objects
      fixedInitCtx = some ⟨30, 25, some 5, some 5, 50, 40, none, none⟩ := by
    rw [getLayoutStrategyResult_init_fixed _ _ _ rfl]
    simp only [prepareInitialBoundingBox, hb, fixedInitCtx, fixedInitOptions]
    norm_num [hne, getTransformedDimensions, resolveOrigin, Pt.multiply,
      Pt.scalarAdd, Pt.add, fixedSt]
  rw [hs]
  rfl

/-- C7 amended: under the fixed directive `getLayoutStrategyResult`
returns a result only for initialization and imperative triggers, and the
initialization layout calculation is skipped (returns no result) when the
four explicit bbox options are all given AND the children were passed as
already relative to the group. -/
theorem c7_fixed_layout_result_amended (st : GState) (objs : List ChildObj)
    (ctx : LayoutContext) :
    (ctx.type ≠ LayoutTrigger.ltInit → ctx.type ≠ LayoutTrigger.imperative →
        getLayoutStrategyResult st LayoutDirective.fixed objs ctx = none) ∧
    (∀ opts, ctx.type = LayoutTrigger.ltInit → ctx.options = some opts →
        opts.left.isSome = true → opts.top.isSome = true →
        opts.width.isSome = true → opts.height.isSome = true →
        ctx.objectsRelativeToGroup = true →
        getLayoutStrategyResult st LayoutDirective.fixed objs ctx = none) := by
  constructor
  · intro h1 h2
    unfold getLayoutStrategyResult
    by_cases hp : ctx.type = LayoutTrigger.progress
    · simp [hp]
    · simp [hp, h1, h2]
  · intro opts hinit hopts hl ht hw hh hrel
    have hskip : prepareInitialBoundingBox st LayoutDirective.fixed objs ctx = none := by
      unfold prepareInitialBoundingBox
      rw [hopts]
      simp [hl, ht, hw, hh, hrel]
    rw [getLayoutStrategyResult_init_fixed st objs ctx hinit, hskip]

/-- Witness for the amended C7: part one at an added trigger on the
counterexample container; part two at the counterexample options with
`objectsRelativeToGroup` set. -/
theorem c7_fixed_layout_result_amended_witness :
    (getLayoutStrategyResult fixedSt LayoutDirective.fixed fixedSt.objects
        ⟨LayoutTrigger.added, [], none, none, false⟩ = none) ∧
    (getLayoutStrategyResult fixedSt LayoutDirective.fixed fixedSt.objects
        ⟨LayoutTrigger.ltInit, [], some fixedInitOptions, none, true⟩ = none) :=
  ⟨(c7_fixed_layout_result_amended fixedSt fixedSt.objects
      ⟨LayoutTrigger.added, [], none, none, false⟩).1 (by decide) (by decide),
   (c7_fixed_layout_result_amended fixedSt fixedSt.objects
      ⟨LayoutTrigger.ltInit, [], some fixedInitOptions, none, true⟩).2
      fixedInitOptions rfl rfl rfl rfl rfl rfl rfl⟩

/-- Union of two optional boxes; `none` is the neutral element (the
`first` flag of the `getObjectsBoundingBox` loop). -/
def mergeOB : Option Box → Option Box → Option Box
  | none, q => q
  | some p, none => some p
  | some p, some q => some (joinBox p q)

/-- Helper: one loop iteration is a merge with the object box. -/
lemma accBox_merge (acc : Option Box) (o : ChildObj) :
    accBox acc o = mergeOB acc (objBox o) := by
  cases hob : objBox o <;> cases acc <;> simp [accBox, mergeOB, hob]

/-- Helper: box union is commutative. -/
lemma joinBox_comm (p q : Box) : joinBox p q = joinBox q p := by
  simp [joinBox, min_comm, max_comm]

/-- Helper: box union is associative. -/
lemma joinBox_assoc (p q r : Box) :
    joinBox (joinBox p q) r = joinBox p (joinBox q r) := by
  simp [joinBox, min_assoc, max_assoc]

/-- Helper: optional-box union is commutative. -/
lemma mergeOB_comm (p q : Option Box) : mergeOB p q = mergeOB q p := by
  cases p <;> cases q <;> simp [mergeOB, joinBox_comm]

/-- Helper: optional-box union is associative. -/
lemma mergeOB_assoc (p q r : Option Box) :
    mergeOB (mergeOB p q) r = mergeOB p (mergeOB q r) := by
  cases p <;> cases q <;> cases r <;> simp [mergeOB, joinBox_assoc]

/-- Helper: the bounding-box fold over a list starting from an accumulator
is the merge of the accumulator with the fold from scratch. -/
lemma foldl_accBox_merge (ys : List ChildObj) (acc : Option Box) :
    ys.foldl accBox acc = mergeOB acc (ys.foldl accBox none) := by
  induction ys generalizing acc with
  | nil => cases acc <;> simp [mergeOB]
  | cons y ys ih =>
      rw [List.foldl_cons, List.foldl_cons, ih (accBox acc y),
        ih (accBox none y), accBox_merge acc y, accBox_merge none y]
      rw [show mergeOB none (objBox y) = objBox y by cases objBox y <;> rfl]
      rw [mergeOB_assoc]

/-- Helper: the fit-content-lazy added fast path reduces to the bounding
box of the just-added objects together with the container itself, when
more children are present than were just added. -/
lemma getLayoutStrategyResult_added_lazy (st : GState) (objs : List ChildObj)
    (ctx : LayoutContext) (h : ctx.type = LayoutTrigger.added)
    (hlen : ctx.targets.length < objs.length) :
    getLayoutStrategyResult st LayoutDirective.fitContentLazy objs ctx =
      getObjectsBoundingBox st (ctx.targets ++ [groupAsChildObj st]) false := by
  unfold getLayoutStrategyResult prepareBoundingBox
  rw [h]
  simp [hlen]

/-- Helper: the fit-content directive on an added trigger reduces to the
fresh bounding box over all current children. -/
lemma getLayoutStrategyResult_added_fitContent (st : GState) (objs : List ChildObj)
    (ctx : LayoutContext) (h : ctx.type = LayoutTrigger.added) :
    getLayoutStrategyResult st LayoutDirective.fitContent objs ctx =
      getObjectsBoundingBox st objs false := by
  unfold getLayoutStrategyResult prepareBoundingBox
  rw [h]
  simp

/-- The two members of the C8 counterexample container before the add:
one previously-present child and one just-added child, both spanning the
local box from (-5,-5) to (5,5). -/
def oldCh : ChildObj := ⟨⟨0, 0⟩, ⟨5, 5⟩, false, true⟩

def newCh : ChildObj := ⟨⟨0, 0⟩, ⟨5, 5⟩, false, true⟩

/-- The C8 counterexample container: a consistently laid-out
fit-content-lazy group (local bounding box of the old child centered on
the local origin, stored dimensions 10 by 10 matching it) whose center
sits at (10,0) in the parent plane. -/
def lazySt : GState :=
  { objects := [oldCh, newCh],
    center := ⟨10, 0⟩, left := 5, top := -5, width := 10, height := 10,
    strokeWidth := 0, scaleX := 1, scaleY := 1, angle := 0, skewX := 0, skewY := 0,
    originX := Origin.originLeftTop, originY := Origin.originLeftTop,
    layout := LayoutDirective.fitContentLazy, firstLayoutDone := true,
    layoutInProgress := false, dirty := false, ownCaching := false,
    ancestorsCaching := [], canvasPreserve := none, clipPath := none,
    groupTransform := none }

/-- The added-trigger context of the C8 counterexample, carrying the one
just-added child. -/
def lazyCtx : LayoutContext :=
  { type := LayoutTrigger.added, targets := [newCh], options := none,
    imperativeContext := none, objectsRelativeToGroup := false }

/-- C8 counterexample: on a container whose center is not at the parent
origin, the lazy added path (new objects plus the container itself as an
object) computes a different bounding box (width 20, center 15) than the
fresh fit-content computation over all current children (width 10,
center 10) — the container object contributes its parent-plane center to
a union of local-plane boxes.  The claim of unconditional equivalence is
refuted. -/
theorem c8_lazy_not_equivalent_counterexample :
    lazyCtx.targets.length < lazySt.objects.length ∧
    getLayoutStrategyResult lazySt LayoutDirective.fitContentLazy lazySt.objects lazyCtx ≠
      getLayoutStrategyResult lazySt LayoutDirective.fitContent lazySt.objects lazyCtx := by
  refine ⟨by decide, ?_⟩
  have hL : getLayoutStrategyResult lazySt LayoutDirective.fitContentLazy
      lazySt.objects lazyCtx =
      some ⟨15, 0, none, none, 20, 10, some 5, some (-5)⟩ := by
    rw [getLayoutStrategyResult_added_lazy _ _ _ rfl (by decide)]
    norm_num [lazyCtx, lazySt, groupAsChildObj, getObjectsBoundingBox, accBox,
      objBox, joinBox, calcOwnMatrix, transformPoint, Pt.sub, Pt.add,
      Pt.midPointFrom, List.foldl, oldCh, newCh]
    intro h
    simp at h
  have hR : getLayoutStrategyResult lazySt LayoutDirective.fitContent
      lazySt.objects lazyCtx =
      some ⟨10, 0, none, none, 10, 10, some 5, some (-5)⟩ := by
    rw [getLayoutStrategyResult_added_fitContent _ _ _ rfl]
    norm_num [lazySt, getObjectsBoundingBox, accBox, objBox, joinBox,
      calcOwnMatrix, transformPoint, Pt.sub, Pt.add, Pt.midPointFrom,
      List.foldl, oldCh, newCh]
    intro h
    simp at h
  rw [hL, hR]
  intro heq
  have h1510 : (15 : ℚ) = 10 :=
    congrArg (fun r => (r.getD ⟨0, 0, none, none, 0, 0, none, none⟩).centerX) heq
  norm_num at h1510

/-- C8 amended: the lazy added path equals the fresh fit-content
computation under the conditions the counterexamples show to be
necessary: the container own transform is the identity — center at the
parent origin, unit scale, zero stroke, and zero angle and skew (a
rotated container contributes a rotated size vector to the lazy union,
group.class.js lines 893-900, so rotation breaks the equivalence just as
an offset center does) — and its stored box coincides with the bounding
box of the previously-present children (centered on the local origin with
nonnegative dimensions).  The zero-angle/zero-skew hypotheses also
delimit the domain on which `groupAsChildObj` and `calcOwnMatrix` agree
with the source, so the equivalence is asserted only where the embedding
is faithful.  In general the lazy path is an approximation, not an
equivalent optimization. -/
theorem c8_lazy_equiv_amended (stG : GState) (oldObjs newObjs : List ChildObj)
    (ctx : LayoutContext)
    (hobjs : stG.objects = oldObjs ++ newObjs)
    (hctx : ctx.type = LayoutTrigger.added)
    (htargets : ctx.targets = newObjs)
    (hold : oldObjs ≠ [])
    (hcenter : stG.center = ⟨0, 0⟩)
    (hsx : stG.scaleX = 1) (hsy : stG.scaleY = 1) (hsw : stG.strokeWidth = 0)
    (hang : stG.angle = 0) (hskx : stG.skewX = 0) (hsky : stG.skewY = 0)
    (hw : 0 ≤ stG.width) (hh : 0 ≤ stG.height)
    (hbox : oldObjs.foldl accBox none =
      some ⟨⟨-(stG.width / 2), -(stG.height / 2)⟩, ⟨stG.width / 2, stG.height / 2⟩⟩) :
    getLayoutStrategyResult stG LayoutDirective.fitContentLazy stG.objects ctx =
      getLayoutStrategyResult stG LayoutDirective.fitContent stG.objects ctx := by
  have hlen : ctx.targets.length < stG.objects.length := by
    rw [htargets, hobjs, List.length_append]
    have := List.length_pos.mpr hold
    omega
  have ha : objBox (groupAsChildObj stG) =
      some ⟨⟨-(stG.width / 2), -(stG.height / 2)⟩, ⟨stG.width / 2, stG.height / 2⟩⟩ := by
    have h1 : -(stG.width / 2) ≤ stG.width / 2 := by linarith
    have h2 : -(stG.height / 2) ≤ stG.height / 2 := by linarith
    simp only [objBox, groupAsChildObj, Pt.sub, Pt.add, hcenter, hsx, hsy, hsw]
    norm_num [min_eq_left h1, max_eq_right h1, min_eq_left h2, max_eq_right h2]
  have hfold : (newObjs ++ [groupAsChildObj stG]).foldl accBox none =
      (oldObjs ++ newObjs).foldl accBox none := by
    rw [List.foldl_append, List.foldl_append, List.foldl_cons, List.foldl_nil,
      accBox_merge, ha, hbox,
      foldl_accBox_merge newObjs
        (some ⟨⟨-(stG.width / 2), -(stG.height / 2)⟩, ⟨stG.width / 2, stG.height / 2⟩⟩),
      mergeOB_comm]
  have hLHS : getLayoutStrategyResult stG LayoutDirective.fitContentLazy
      stG.objects ctx =
      getObjectsBoundingBox stG (newObjs ++ [groupAsChildObj stG]) false := by
    rw [getLayoutStrategyResult_added_lazy stG stG.objects ctx hctx hlen, htargets]
  have hRHS : getLayoutStrategyResult stG LayoutDirective.fitContent
      stG.objects ctx = getObjectsBoundingBox stG stG.objects false :=
    getLayoutStrategyResult_added_fitContent stG stG.objects ctx hctx
  rw [hLHS, hRHS]
  unfold getObjectsBoundingBox
  rw [if_neg (by simp : ¬(newObjs ++ [groupAsChildObj stG] = [])),
    if_neg (show ¬(stG.objects = []) by rw [hobjs]; simp [hold])]
  rw [show stG.objects = oldObjs ++ newObjs from hobjs, hfold]

/-- Witness for the amended C8: an unrotated, unskewed group at the
parent origin with stored box 10 by 10 equal to the old child box; the
lazy and fresh results agree on adding a child spanning (1,1) to (3,3). -/
theorem c8_lazy_equiv_amended_witness :
    getLayoutStrategyResult
        ⟨[oldCh, ⟨⟨2, 2⟩, ⟨1, 1⟩, false, true⟩], ⟨0, 0⟩, -5, -5, 10, 10, 0, 1, 1, 0, 0, 0,
          Origin.originLeftTop, Origin.originLeftTop, LayoutDirective.fitContentLazy,
          true, false, false, false, [], none, none, none⟩
        LayoutDirective.fitContentLazy
        [oldCh, ⟨⟨2, 2⟩, ⟨1, 1⟩, false, true⟩]
        ⟨LayoutTrigger.added, [⟨⟨2, 2⟩, ⟨1, 1⟩, false, true⟩], none, none, false⟩ =
      getLayoutStrategyResult
        ⟨[oldCh, ⟨⟨2, 2⟩, ⟨1, 1⟩, false, true⟩], ⟨0, 0⟩, -5, -5, 10, 10, 0, 1, 1, 0, 0, 0,
          Origin.originLeftTop, Origin.originLeftTop, LayoutDirective.fitContentLazy,
          true, false, false, false, [], none, none, none⟩
        LayoutDirective.fitContent
        [oldCh, ⟨⟨2, 2⟩, ⟨1, 1⟩, false, true⟩]
        ⟨LayoutTrigger.added, [⟨⟨2, 2⟩, ⟨1, 1⟩, false, true⟩], none, none, false⟩ := by
  have hb : [oldCh].foldl accBox none =
      some ⟨⟨-((10 : ℚ) / 2), -((10 : ℚ) / 2)⟩, ⟨(10 : ℚ) / 2, (10 : ℚ) / 2⟩⟩ := by
    norm_num [List.foldl, accBox, objBox, oldCh, Pt.sub, Pt.add]
  exact c8_lazy_equiv_amended _ [oldCh] [⟨⟨2, 2⟩, ⟨1, 1⟩, false, true⟩] _
    rfl rfl rfl (by simp) rfl rfl rfl rfl rfl rfl rfl (by norm_num) (by norm_num) hb

/-- The container state of the C1 counterexample: first layout completed,
re-entrancy flag set, fit-content layout, one member whose bounding box
does not match the stored dimensions. -/
def reentrantSt : GState :=
  { objects := [⟨⟨0, 0⟩, ⟨5, 5⟩, false, true⟩],
    center := ⟨0, 0⟩, left := -5, top := -5, width := 3, height := 3,
    strokeWidth := 0, scaleX := 1, scaleY := 1, angle := 0, skewX := 0, skewY := 0,
    originX := Origin.originLeftTop, originY := Origin.originLeftTop,
    layout := LayoutDirective.fitContent, firstLayoutDone := true,
    layoutInProgress := true, dirty := false, ownCaching := false,
    ancestorsCaching := [], canvasPreserve := none, clipPath := none,
    groupTransform := none }

/-- The object-modified layout context of the C1 counterexample. -/
def reentrantCtx : LayoutContext :=
  { type := LayoutTrigger.objectModified, targets := [], options := none,
    imperativeContext := none, objectsRelativeToGroup := false }

/-- C1 counterexample: an object-modified layout call issued while
`_layoutInProgress` is set on a laid-out container is NOT dropped — it goes
on to change the container width (3 becomes 10), refuting the claim that
re-entrant calls of every trigger type are dropped. -/
theorem c1_reentrant_nonprogress_not_dropped :
    reentrantSt.layoutInProgress = true ∧
    reentrantSt.firstLayoutDone = true ∧
    reentrantCtx.type = LayoutTrigger.objectModified ∧
    (applyLayoutStrategy reentrantSt reentrantCtx).width ≠ reentrantSt.width := by
  refine ⟨rfl, rfl, rfl, ?_⟩
  have h1 : getObjectsBoundingBox reentrantSt reentrantSt.objects false =
      some ⟨0, 0, none, none, 10, 10, some (-5), some (-5)⟩ := by
    norm_num [getObjectsBoundingBox, accBox, objBox, joinBox, calcOwnMatrix,
      transformPoint, Pt.sub, Pt.add, Pt.midPointFrom, reentrantSt, List.foldl]
  have h2 : getLayoutStrategyResult reentrantSt reentrantSt.layout
      reentrantSt.objects reentrantCtx =
      some ⟨0, 0, none, none, 10, 10, some (-5), some (-5)⟩ := by
    rw [show reentrantSt.layout = LayoutDirective.fitContent from rfl]
    simp [getLayoutStrategyResult, prepareBoundingBox,
      show reentrantCtx.type = LayoutTrigger.objectModified from rfl,
      show reentrantCtx.imperativeContext = none from rfl, h1]
  have h3 : (applyLayoutStrategy reentrantSt reentrantCtx).width = 10 := by
    unfold applyLayoutStrategy
    rw [h2]
    norm_num [reentrantSt, reentrantCtx, setPositionByOrigin, getTransformedDimensions,
      resolveOrigin, calcOwnMatrix, invertTransform, detM, transformPoint,
      Pt.add, Pt.sub]
    rfl
  rw [h3, show reentrantSt.width = 3 from rfl]
  norm_num

/-- C1 amended: only progress-typed layout calls are dropped by the
re-entrancy guard — when `_layoutInProgress` is set and the trigger type is
progress the call returns with the container state unchanged (calls of the
other trigger types proceed, as the counterexample shows). -/
theorem c1_reentrant_progress_dropped (st : GState) (ctx : LayoutContext)
    (hp : ctx.type = LayoutTrigger.progress) (hflag : st.layoutInProgress = true) :
    applyLayoutStrategy st ctx = st :=
  applyLayout_progress_eq st ctx hp

/-- Witness for the amended C1 at the counterexample container with a
progress-typed context. -/
theorem c1_reentrant_progress_dropped_witness :
    (LayoutContext.type ⟨LayoutTrigger.progress, [], none, none, false⟩ =
        LayoutTrigger.progress) ∧
    reentrantSt.layoutInProgress = true ∧
    applyLayoutStrategy reentrantSt ⟨LayoutTrigger.progress, [], none, none, false⟩ =
      reentrantSt :=
  ⟨rfl, rfl, c1_reentrant_progress_dropped reentrantSt _ rfl rfl⟩

end Fabric
